import Mathlib

/-!
Shallow embedding of the FaceGuard temporal policy layer
(`face_guard.py`, `gesture_trainer.py`).

Angles, timestamps and durations are modelled as rationals (`ℚ`),
brightness values as integers (`ℤ`).  Stateful methods of
`VisionWorker` become explicit state-passing functions on
`WorkerState`; actuator and notification calls become elements of an
emitted `Action` list.
-/

namespace FaceGuard

/-- Externally visible effects of one call / one loop tick.
`toastInfoSession` is the informational notice emitted while a trusted
session suppresses unknown-face alerts; `toastWarning2s` is the
secondary deadline warning of the confirmation protocol; every other
notification text is abstracted to `toastOther`. -/
inductive Action where
  | setBrightness (v : ℤ)
  | lockScreen
  | toastInfoSession
  | toastWarning2s
  | toastLockFailed
  | toastOther
  deriving DecidableEq, Repr

inductive GestureKind where
  | nod
  | shake
  deriving DecidableEq, Repr

/-- One recorded training pattern (the dict built in
`VisionWorker.check_gesture_training`): the raw window, the in-window
range on the relevant axis, and the recording time. -/
structure Pattern where
  pitch_data : List ℚ
  yaw_data : List ℚ
  range_deg : ℚ
  timestamp : ℚ
  deriving DecidableEq, Repr

-- ---------- Gesture classifier (`VisionWorker._detect_gesture`,
-- identical in `GestureTrainer.detect_gesture`) ----------

/-- Ternary state of one baseline-corrected sample: `+1` past the
positive threshold, `-1` past the negative threshold, `0` otherwise. -/
def ternary (th : ℚ) (v : ℚ) : ℤ :=
  if v > th then 1 else if v < -th then -1 else 0

/-- The accumulator loop of `count_oscillations`: `last_nonzero`
starts at `0`; a nonzero state differing from the previously seen
nonzero state increments the count. -/
def oscLoop : List ℤ → ℤ → ℕ → ℕ
  | [], _, count => count
  | s :: rest, last_nonzero, count =>
      let count2 := if s ≠ 0 ∧ s ≠ last_nonzero ∧ last_nonzero ≠ 0 then count + 1 else count
      let last2 := if s ≠ 0 then s else last_nonzero
      oscLoop rest last2 count2

/-- `count_oscillations(seq, th)` from the source: map the sequence to
ternary states, then run the counting loop. -/
def count_oscillations (seq : List ℚ) (th : ℚ) : ℕ :=
  oscLoop (seq.map (ternary th)) 0 0

/-- `VisionWorker._detect_gesture`, as a pure function of the two
sample windows, the baseline and the thresholds.  Returns
`(is_nod, is_shake)`. -/
def detect_gesture (pitch_hist yaw_hist : List ℚ)
    (baseline_pitch baseline_yaw nod_threshold shake_threshold : ℚ) :
    Bool × Bool :=
  if pitch_hist.length < 10 ∨ yaw_hist.length < 10 then (false, false)
  else
    let corrected_pitch := pitch_hist.map (fun p => p - baseline_pitch)
    let corrected_yaw := yaw_hist.map (fun y => y - baseline_yaw)
    let pitch_oscillations := count_oscillations corrected_pitch nod_threshold
    let yaw_oscillations := count_oscillations corrected_yaw shake_threshold
    (decide (pitch_oscillations ≥ 2 ∧ yaw_oscillations < 2),
     decide (yaw_oscillations ≥ 2 ∧ pitch_oscillations < 2))

-- ---------- Spec-side oscillation count (from the words of the
-- claim: the number of nonzero states differing from the previously
-- seen nonzero state, zeros transparent, first nonzero free) ----------

/-- Number of adjacent unequal pairs in a list. -/
def countAlternations : List ℤ → ℕ
  | a :: b :: rest => (if b ≠ a then 1 else 0) + countAlternations (b :: rest)
  | _ => 0

/-- Spec-side oscillation count: drop the zero states and count the
alternations of the remaining nonzero states, so a run of zeros does
not reset the memory and the first nonzero state does not count. -/
def oscillationsSpec (seq : List ℚ) (th : ℚ) : ℕ :=
  countAlternations ((seq.map (ternary th)).filter (fun s => s ≠ 0))

/-- The nonzero states of a ternary sequence, in order. -/
def nonzeros (l : List ℤ) : List ℤ := l.filter (fun s => s ≠ 0)

lemma nonzeros_nil : nonzeros [] = [] := rfl

lemma nonzeros_cons_zero (rest : List ℤ) : nonzeros (0 :: rest) = nonzeros rest := by
  simp [nonzeros]

lemma nonzeros_cons (s : ℤ) (hs : s ≠ 0) (rest : List ℤ) :
    nonzeros (s :: rest) = s :: nonzeros rest := by
  simp [nonzeros, hs]

lemma countAlternations_cons_cons (a b : ℤ) (l : List ℤ) :
    countAlternations (a :: b :: l) =
      (if b ≠ a then 1 else 0) + countAlternations (b :: l) := rfl

lemma oscLoop_cons_zero (rest : List ℤ) (last : ℤ) (c : ℕ) :
    oscLoop (0 :: rest) last c = oscLoop rest last c := by
  simp [oscLoop]

lemma oscLoop_cons_nonzero_zerolast (s : ℤ) (hs : s ≠ 0) (rest : List ℤ) (c : ℕ) :
    oscLoop (s :: rest) 0 c = oscLoop rest s c := by
  simp [oscLoop, hs]

lemma oscLoop_cons_nonzero (s last : ℤ) (hs : s ≠ 0) (hl : last ≠ 0)
    (rest : List ℤ) (c : ℕ) :
    oscLoop (s :: rest) last c = oscLoop rest s (if s = last then c else c + 1) := by
  by_cases hd : s = last
  · simp [oscLoop, hs, hl, hd]
  · simp [oscLoop, hs, hl, hd]

lemma oscLoop_accum (l : List ℤ) (last : ℤ) (c : ℕ) :
    oscLoop l last c = c + oscLoop l last 0 := by
  induction l generalizing last c with
  | nil => simp [oscLoop]
  | cons s rest ih =>
      by_cases h0 : s = 0
      · subst h0
        rw [oscLoop_cons_zero, oscLoop_cons_zero, ih]
      · by_cases hl : last = 0
        · subst hl
          rw [oscLoop_cons_nonzero_zerolast s h0,
            oscLoop_cons_nonzero_zerolast s h0, ih]
        · rw [oscLoop_cons_nonzero s last h0 hl,
            oscLoop_cons_nonzero s last h0 hl]
          by_cases hd : s = last
          · rw [if_pos hd, if_pos hd, ih]
          · rw [if_neg hd, if_neg hd, ih _ (c + 1), ih _ (0 + 1)]
            omega

lemma oscLoop_eq_countAlternations (l : List ℤ) (last : ℤ) :
    oscLoop l last 0 =
      countAlternations (if last = 0 then nonzeros l else last :: nonzeros l) := by
  induction l generalizing last with
  | nil =>
      by_cases hl : last = 0 <;> simp [oscLoop, countAlternations, nonzeros, hl]
  | cons s rest ih =>
      by_cases h0 : s = 0
      · subst h0
        rw [oscLoop_cons_zero, ih last]
        simp only [nonzeros_cons_zero]
      · simp only [nonzeros_cons s h0]
        by_cases hl : last = 0
        · subst hl
          rw [oscLoop_cons_nonzero_zerolast s h0, ih s]
          simp [h0]
        · rw [oscLoop_cons_nonzero s last h0 hl]
          by_cases hd : s = last
          · subst hd
            rw [if_pos rfl, ih s]
            simp [h0, hl, countAlternations_cons_cons]
          · have h1 : (if s = last then 0 else 0 + 1) = 1 := by simp [hd]
            rw [h1, oscLoop_accum, ih s]
            simp [h0, hl, countAlternations_cons_cons, hd]

/-- The oscillation count of the source equals the spec-side
alternation count of the filtered nonzero states. -/
lemma count_oscillations_eq (seq : List ℚ) (th : ℚ) :
    count_oscillations seq th = oscillationsSpec seq th := by
  unfold count_oscillations oscillationsSpec
  rw [oscLoop_eq_countAlternations]
  simp [nonzeros]

-- ---------- Worker state (the `VisionWorker` fields used by the
-- policy layer, plus the persisted settings keys it reads) ----------

/-- The mutable fields of `VisionWorker` that the monitoring policy
reads and writes, together with the two persisted settings keys used
by the plain dimming path (`brightness_before_absence`,
`brightness_restored`).  Timestamp fields that start as Python `None`
are `Option ℚ`. -/
structure WorkerState where
  pitch_hist : List ℚ
  yaw_hist : List ℚ
  last_unknown_ts : ℚ
  awaiting_gesture : Bool
  gesture_deadline : ℚ
  gesture_confirmed : Bool
  normal_brightness : ℤ
  reduced : Bool
  owner_absent_start : Option ℚ
  brightness_dimmed_for_absence : Bool
  auto_lock_grace_period_start : Option ℚ
  brightness_before_auto_lock : Option ℤ
  auto_lock_in_progress : Bool
  system_locked : Bool
  system_sleeping : Bool
  program_paused : Bool
  last_unknown_save : ℚ
  unknown_face_counter : ℕ
  gesture_test_mode : Bool
  gesture_test_type : GestureKind
  gesture_test_start : ℚ
  gesture_training_mode : Bool
  gesture_training_type : GestureKind
  gesture_training_start : ℚ
  training_nod : List Pattern
  training_shake : List Pattern
  calibration_mode : Bool
  calibration_start : ℚ
  baseline_pitch : ℚ
  baseline_yaw : ℚ
  nod_threshold : ℚ
  shake_threshold : ℚ
  patterns_nod : List Pattern
  patterns_shake : List Pattern
  brightness_before_absence : ℤ
  brightness_restored : Bool
  deriving DecidableEq, Repr

/-- The settings the presence machine reads each tick
(`auto_lock_enabled`, `owner_absence_delay`, `auto_lock_grace_period`;
defaults `false`, 3.0 s, 30.0 s). -/
structure Config where
  auto_lock_enabled : Bool
  owner_absence_delay : ℚ
  auto_lock_grace_period : ℚ
  deriving DecidableEq, Repr

/-- The default configuration loaded when no setting is persisted. -/
def defaultConfig : Config := ⟨false, 3, 30⟩

/-- `deque(maxlen=30)` append: add at the right, keep the last 30. -/
def dequeAppend (l : List ℚ) (x : ℚ) : List ℚ :=
  let l2 := l ++ [x]
  l2.drop (l2.length - 30)

/-- The clamp `int(max(0, min(100, val)))` in `set_brightness`. -/
def clampB (v : ℤ) : ℤ := max 0 (min 100 v)

-- ---------- Brightness snapshot / restore
-- (`VisionWorker.store_current_brightness`,
-- `VisionWorker.restore_brightness`) ----------

/-- `store_current_brightness`: read the current brightness and store
it into the settings snapshot, guarded so an already-stored snapshot
(`brightness_restored = false`) is not overwritten; always refresh
`normal_brightness`. -/
def store_current_brightness (st : WorkerState) (current : ℤ) : WorkerState :=
  let st2 :=
    if st.brightness_restored then
      { st with brightness_before_absence := current, brightness_restored := false }
    else st
  { st2 with normal_brightness := current }

/-- `restore_brightness`: if the snapshot has not been restored yet,
set brightness to the stored value, clear `reduced`, and mark the
snapshot restored; otherwise do nothing. -/
def restore_brightness (st : WorkerState) : WorkerState × List Action :=
  if st.brightness_restored = false then
    ({ st with reduced := false, brightness_restored := true },
     [Action.setBrightness (clampB st.brightness_before_absence)])
  else (st, [])

-- ---------- System state monitoring
-- (`VisionWorker.check_system_state`) ----------

/-- `check_system_state`: compare the external lock/sleep signals with
the remembered ones and pause/resume, resetting exactly the fields the
source resets on each transition. -/
def check_system_state (st : WorkerState)
    (current_locked current_sleeping : Bool) : WorkerState :=
  let st2 :=
    if current_locked ≠ st.system_locked then
      if current_locked then
        { st with system_locked := true, program_paused := true,
                  auto_lock_in_progress := false,
                  auto_lock_grace_period_start := none,
                  owner_absent_start := none,
                  brightness_dimmed_for_absence := false }
      else
        { st with system_locked := false, program_paused := false,
                  owner_absent_start := none,
                  brightness_dimmed_for_absence := false,
                  awaiting_gesture := false, gesture_confirmed := false }
    else st
  if current_sleeping ≠ st2.system_sleeping then
    if current_sleeping then
      { st2 with system_sleeping := true, program_paused := true,
                 owner_absent_start := none,
                 brightness_dimmed_for_absence := false,
                 auto_lock_in_progress := false,
                 auto_lock_grace_period_start := none,
                 awaiting_gesture := false, gesture_confirmed := false }
    else
      if current_locked = false then
        { st2 with system_sleeping := false, program_paused := false,
                   owner_absent_start := none,
                   brightness_dimmed_for_absence := false,
                   awaiting_gesture := false, gesture_confirmed := false }
      else { st2 with system_sleeping := false }
  else st2

-- ---------- Episode starts (`start_gesture_training`,
-- `start_gesture_calibration`, `start_gesture_test`) ----------

/-- Training data recorded for one gesture kind. -/
def trainingData (st : WorkerState) : GestureKind → List Pattern
  | .nod => st.training_nod
  | .shake => st.training_shake

def setTrainingData (st : WorkerState) : GestureKind → List Pattern → WorkerState
  | .nod, l => { st with training_nod := l }
  | .shake, l => { st with training_shake := l }

def setPatterns (st : WorkerState) : GestureKind → List Pattern → WorkerState
  | .nod, l => { st with patterns_nod := l }
  | .shake, l => { st with patterns_shake := l }

/-- `start_gesture_training`: set the mode flags, clear both sample
buffers and reset the training data of the chosen kind. -/
def start_gesture_training (st : WorkerState) (k : GestureKind) (now : ℚ) :
    WorkerState :=
  setTrainingData
    { st with gesture_training_mode := true, gesture_training_type := k,
              gesture_training_start := now, pitch_hist := [], yaw_hist := [] }
    k []

/-- `start_gesture_calibration`: set the mode flag and clear both
sample buffers. -/
def start_gesture_calibration (st : WorkerState) (now : ℚ) : WorkerState :=
  { st with calibration_mode := true, calibration_start := now,
            pitch_hist := [], yaw_hist := [] }

/-- `start_gesture_test`: set the mode flags and clear both sample
buffers. -/
def start_gesture_test (st : WorkerState) (k : GestureKind) (now : ℚ) :
    WorkerState :=
  { st with gesture_test_mode := true, gesture_test_type := k,
            gesture_test_start := now, pitch_hist := [], yaw_hist := [] }

-- ---------- Training episode ticks
-- (`check_gesture_training`, `_complete_gesture_training`) ----------

/-- Python `max` over a nonempty list (used only under a nonemptiness
guard; defaults to 0 on the empty list). -/
def listMax : List ℚ → ℚ
  | [] => 0
  | x :: xs => xs.foldl max x

/-- Python `min` over a nonempty list. -/
def listMin : List ℚ → ℚ
  | [] => 0
  | x :: xs => xs.foldl min x

/-- The per-kind floor and in-window range used by training:
nod uses the pitch axis with floor 8.0, shake the yaw axis with floor
10.0. -/
def thresholdFloor : GestureKind → ℚ
  | .nod => 8
  | .shake => 10

/-- `_complete_gesture_training`: with at least 3 recorded patterns,
set the trained threshold to `max(floor, avg_range * 0.6)`, keep the
last 3 patterns, and report success; otherwise report failure.  The
mode flag is cleared either way.  The reported boolean is the
`on_training_complete(gesture_type, success)` callback argument. -/
def complete_gesture_training (st : WorkerState) : WorkerState × Bool :=
  let k := st.gesture_training_type
  let patterns := trainingData st k
  if patterns.length ≥ 3 then
    let ranges := patterns.map Pattern.range_deg
    let avg_range := ranges.sum / (ranges.length : ℚ)
    let st2 :=
      match k with
      | .nod => { st with nod_threshold := max 8 (avg_range * (3 / 5)) }
      | .shake => { st with shake_threshold := max 10 (avg_range * (3 / 5)) }
    let st3 := setPatterns st2 k (patterns.drop (patterns.length - 3))
    ({ st3 with gesture_training_mode := false }, true)
  else
    ({ st with gesture_training_mode := false }, false)

/-- `check_gesture_training`: `none` means no terminal event this
tick; `some b` is the completion report.  After 15 s the episode times
out with failure.  Otherwise a sample is recorded when the in-window
range on the relevant axis exceeds 5.0, and the episode completes once
5 samples are collected. -/
def check_gesture_training (st : WorkerState) (now : ℚ) :
    WorkerState × Option Bool :=
  if st.gesture_training_mode = false then (st, none)
  else if now - st.gesture_training_start > 15 then
    ({ st with gesture_training_mode := false }, some false)
  else
    let st2 :=
      if st.pitch_hist ≠ [] ∧ st.yaw_hist ≠ [] then
        match st.gesture_training_type with
        | .nod =>
            let pitch_range := listMax st.pitch_hist - listMin st.pitch_hist
            if pitch_range > 5 then
              { st with training_nod :=
                  st.training_nod ++ [⟨st.pitch_hist, st.yaw_hist, pitch_range, now⟩] }
            else st
        | .shake =>
            let yaw_range := listMax st.yaw_hist - listMin st.yaw_hist
            if yaw_range > 5 then
              { st with training_shake :=
                  st.training_shake ++ [⟨st.pitch_hist, st.yaw_hist, yaw_range, now⟩] }
            else st
      else st
    if (trainingData st2 st2.gesture_training_type).length ≥ 5 then
      let (st3, success) := complete_gesture_training st2
      (st3, some success)
    else (st2, none)

-- ---------- Calibration and test ticks
-- (`check_gesture_calibration`, `check_gesture_test`) ----------

/-- `check_gesture_calibration`: after 3 s, set the baseline to the
buffer means when both buffers hold more than 10 samples, else fail;
clear the mode flag at the terminal point. -/
def check_gesture_calibration (st : WorkerState) (now : ℚ) :
    WorkerState × Option Bool :=
  if st.calibration_mode = false then (st, none)
  else if now - st.calibration_start > 3 then
    if st.pitch_hist.length > 10 ∧ st.yaw_hist.length > 10 then
      ({ st with baseline_pitch := st.pitch_hist.sum / (st.pitch_hist.length : ℚ),
                 baseline_yaw := st.yaw_hist.sum / (st.yaw_hist.length : ℚ),
                 calibration_mode := false }, some true)
    else ({ st with calibration_mode := false }, some false)
  else (st, none)

/-- `check_gesture_test`: 10 s timeout; any detected nod or shake ends
the test (pass when it matches the tested kind, fail otherwise). -/
def check_gesture_test (st : WorkerState) (now : ℚ) : WorkerState :=
  if st.gesture_test_mode = false then st
  else if now - st.gesture_test_start > 10 then
    { st with gesture_test_mode := false }
  else
    let r := detect_gesture st.pitch_hist st.yaw_hist st.baseline_pitch
      st.baseline_yaw st.nod_threshold st.shake_threshold
    if st.gesture_test_type = .nod ∧ r.1 then
      { st with gesture_test_mode := false }
    else if st.gesture_test_type = .shake ∧ r.2 then
      { st with gesture_test_mode := false }
    else if st.gesture_test_type = .nod ∧ r.2 then
      { st with gesture_test_mode := false }
    else if st.gesture_test_type = .shake ∧ r.1 then
      { st with gesture_test_mode := false }
    else st

-- ---------- Unknown-face snapshot (`save_unknown_face`) ----------

/-- `save_unknown_face`: persist a snapshot image of the unknown face,
throttled to once per 5 s (the image write itself is external). -/
def save_unknown_face (st : WorkerState) (now : ℚ) : WorkerState :=
  if now - st.last_unknown_save < 5 then st
  else { st with last_unknown_save := now,
                 unknown_face_counter := st.unknown_face_counter + 1 }

-- ---------- The owner-presence / auto-lock section of
-- `VisionWorker.run` (lines 2518 to 2590 of the source) ----------

/-- One pass of the owner-presence section of the main loop.  Inputs:
the tick time, whether the owner was matched, the brightness read by
`_get_current_brightness` if the arm branch queries it, and the result
the lock actuator would return (which in the source only selects the
notification text). -/
def presence_step (cfg : Config) (st : WorkerState) (now : ℚ)
    (owner_here : Bool) (cur : ℤ) (lock_ok : Bool) :
    WorkerState × List Action :=
  if owner_here then
    if st.owner_absent_start ≠ none ∨ st.auto_lock_in_progress then
      let p :=
        if st.auto_lock_in_progress ∧ st.brightness_before_auto_lock ≠ none then
          (st, [Action.setBrightness (clampB (st.brightness_before_auto_lock.getD 0))])
        else restore_brightness st
      ({ p.1 with brightness_dimmed_for_absence := false,
                  owner_absent_start := none,
                  auto_lock_in_progress := false,
                  auto_lock_grace_period_start := none,
                  brightness_before_auto_lock := none },
       p.2 ++ [Action.toastOther])
    else (st, [])
  else
    match st.owner_absent_start with
    | none =>
        ({ st with owner_absent_start := some now }, [Action.toastOther])
    | some t0 =>
        if st.brightness_dimmed_for_absence = false ∧
            now - t0 > cfg.owner_absence_delay then
          if cfg.auto_lock_enabled ∧ st.auto_lock_in_progress = false then
            ({ st with brightness_before_auto_lock := some cur,
                       brightness_dimmed_for_absence := true,
                       auto_lock_in_progress := true,
                       auto_lock_grace_period_start := some now },
             [Action.setBrightness 0, Action.toastOther])
          else
            let st2 := store_current_brightness st cur
            ({ st2 with brightness_dimmed_for_absence := true },
             [Action.setBrightness 0, Action.toastOther])
        else if st.auto_lock_in_progress ∧
            st.auto_lock_grace_period_start ≠ none then
          if now - (st.auto_lock_grace_period_start.getD 0) >
              cfg.auto_lock_grace_period then
            let p :=
              match st.brightness_before_auto_lock with
              | some b => (st, [Action.setBrightness (clampB b)])
              | none => restore_brightness st
            ({ p.1 with auto_lock_in_progress := false,
                        auto_lock_grace_period_start := none,
                        brightness_before_auto_lock := none,
                        brightness_dimmed_for_absence := false,
                        owner_absent_start := none },
             p.2 ++ [Action.lockScreen,
               if lock_ok then Action.toastOther else Action.toastLockFailed])
          else (st, [])
        else (st, [])

-- ---------- The unknown-face section of `VisionWorker.run`
-- (lines 2592 to 2628 of the source) ----------

/-- One pass of the unknown-face section.  `trusted` is the verdict of
`is_trusted_face`; the trusted branch (`_handle_trusted_user_session`)
mutates only the session bookkeeping, none of the fields modelled
here.  `session_active` is `get_security_key_status()['session_active']`. -/
def unknown_face_step (st : WorkerState) (now : ℚ)
    (faces_present owner_here trusted session_active : Bool) :
    WorkerState × List Action :=
  if faces_present ∧ owner_here = false then
    if trusted then (st, [])
    else if session_active then
      if now - st.last_unknown_ts > 10 then
        ({ st with last_unknown_ts := now }, [Action.toastInfoSession])
      else (st, [])
    else
      let st2 := save_unknown_face st now
      if st2.awaiting_gesture = false ∧ st2.gesture_test_mode = false ∧
          now - st2.last_unknown_ts > 2 then
        ({ st2 with last_unknown_ts := now, awaiting_gesture := true,
                    gesture_deadline := now + 6 }, [Action.toastOther])
      else (st2, [])
  else (st, [])

-- ---------- The awaiting-gesture section of `VisionWorker.run`
-- (lines 2630 to 2654 of the source) ----------

/-- One pass of the confirmation-evaluation section: query the
classifier, close the request on nod (confirm, brightness 25 %) or on
shake (deny); then emit the deadline warning while the remaining time
lies in the band (1.8 s, 2.0 s]; then time the request out once past
the deadline. -/
def gesture_wait_step (st : WorkerState) (now : ℚ) :
    WorkerState × List Action :=
  if st.awaiting_gesture ∧ st.gesture_test_mode = false then
    let r := detect_gesture st.pitch_hist st.yaw_hist st.baseline_pitch
      st.baseline_yaw st.nod_threshold st.shake_threshold
    let p :=
      if r.1 then
        ({ st with awaiting_gesture := false, gesture_confirmed := true,
                   reduced := true },
         [Action.toastOther, Action.setBrightness 25])
      else if r.2 then
        ({ st with awaiting_gesture := false, gesture_confirmed := false },
         [Action.toastOther])
      else (st, ([] : List Action))
    let p2 :=
      if p.1.awaiting_gesture ∧ p.1.gesture_deadline - now ≤ 2 ∧
          p.1.gesture_deadline - now > 9 / 5 then
        (p.1, p.2 ++ [Action.toastWarning2s])
      else p
    if now > p2.1.gesture_deadline ∧ p2.1.awaiting_gesture then
      ({ p2.1 with awaiting_gesture := false }, p2.2 ++ [Action.toastOther])
    else p2
  else (st, [])

-- ---------- One full loop iteration of `VisionWorker.run` ----------

/-- External inputs of one loop iteration: the tick time, the
lock/sleep signals, the matcher verdicts, the session flag, the
brightness reading, the head pose if the estimator produced one, and
the lock actuator result. -/
structure TickInput where
  now : ℚ
  locked_sig : Bool
  sleeping_sig : Bool
  owner_here : Bool
  faces_present : Bool
  trusted : Bool
  session_active : Bool
  cur_brightness : ℤ
  pose : Option (ℚ × ℚ)
  lock_ok : Bool
  deriving DecidableEq, Repr

/-- The post-pose portion of one loop iteration: the episode checks
followed by the presence, unknown-face and confirmation sections in
source order (factored out of `process_tick` for the loop-level
proofs). -/
def tick_body (cfg : Config) (st1 : WorkerState) (now : ℚ)
    (owner_here faces_present trusted session_active : Bool)
    (cur : ℤ) (lock_ok : Bool) : WorkerState × List Action :=
  let st2 := if st1.gesture_test_mode then check_gesture_test st1 now else st1
  let st3 := if st2.gesture_training_mode then
      (check_gesture_training st2 now).1 else st2
  let st4 := if st3.calibration_mode then
      (check_gesture_calibration st3 now).1 else st3
  let p1 := presence_step cfg st4 now owner_here cur lock_ok
  let p2 := unknown_face_step p1.1 now faces_present owner_here
    trusted session_active
  let p3 := gesture_wait_step p2.1 now
  (p3.1, p1.2 ++ p2.2 ++ p3.2)

/-- The processing body of one loop iteration, reached only while not
paused: append the pose sample, then run `tick_body`. -/
def process_tick (cfg : Config) (st : WorkerState) (inp : TickInput) :
    WorkerState × List Action :=
  let st1 :=
    match inp.pose with
    | some pr => { st with pitch_hist := dequeAppend st.pitch_hist pr.1,
                           yaw_hist := dequeAppend st.yaw_hist pr.2 }
    | none => st
  tick_body cfg st1 inp.now inp.owner_here inp.faces_present inp.trusted
    inp.session_active inp.cur_brightness inp.lock_ok

/-- One full iteration of the monitoring loop: refresh the system
state, then either skip (paused: the camera is released and the tick
performs no actuation) or run the processing body. -/
def vision_tick (cfg : Config) (st : WorkerState) (inp : TickInput) :
    WorkerState × List Action :=
  let stc := check_system_state st inp.locked_sig inp.sleeping_sig
  if stc.program_paused then (stc, [])
  else process_tick cfg stc inp

-- ---------- Closed-loop run for a sustained absence ----------

/-- Number of lock-actuator invocations in an action list. -/
def lockCount (acts : List Action) : ℕ :=
  acts.countP (fun a => a = Action.lockScreen)

/-- One closed-loop step over a sustained absence: the OS lock signal
fed into the next tick is true exactly when an earlier tick invoked
the (succeeding) lock actuator; the owner stays absent, no face is
visible, the system never sleeps. -/
def closed_step (cfg : Config) (p : WorkerState × Bool) (inp : ℚ × ℤ) :
    WorkerState × Bool :=
  let r := vision_tick cfg p.1
    ⟨inp.1, p.2, false, false, false, false, false, inp.2, none, true⟩
  (r.1, p.2 || decide (Action.lockScreen ∈ r.2))

/-- The total number of lock invocations over a closed-loop run. -/
def closed_run_locks (cfg : Config) (p : WorkerState × Bool) :
    List (ℚ × ℤ) → ℕ
  | [] => 0
  | inp :: rest =>
      let r := vision_tick cfg p.1
        ⟨inp.1, p.2, false, false, false, false, false, inp.2, none, true⟩
      lockCount r.2 + closed_run_locks cfg (closed_step cfg p inp) rest

-- ---------- Trusted-identity allow-list
-- (`add_trusted_face_dialog` name gate + `VisionWorker.add_trusted_face`) ----------

/-- One allow-list entry (`{name, encoding, added_date}`); the
embedding is opaque to the policy layer and compared only through the
external distance function. -/
structure TrustedFace where
  name : String
  encoding : ℤ
  added_date : ℚ
  deriving DecidableEq, Repr

/-- The rejection outcomes of the add operation. -/
inductive AddError where
  | nameExists
  | noFace
  | multipleFaces
  | noEncoding
  | alreadyRegistered
  deriving DecidableEq, Repr

/-- `VisionWorker.add_trusted_face`: reject when zero faces or more
than one face is detected, when no encoding can be produced, or when
the encoding sits within the same-person distance 0.6 of an existing
entry; otherwise append the new entry.  `dist` is the external
`face_distance` capability; `boxes` the number of detected faces;
`encodings` the encodings produced for them. -/
def add_trusted_face (dist : ℤ → ℤ → ℚ) (faces : List TrustedFace)
    (boxes : ℕ) (encodings : List ℤ) (name : String) (now : ℚ) :
    Option AddError × List TrustedFace :=
  if boxes = 0 then (some .noFace, faces)
  else if boxes > 1 then (some .multipleFaces, faces)
  else
    match encodings with
    | [] => (some .noEncoding, faces)
    | e :: _ =>
        if faces.any (fun f => dist f.encoding e < 3 / 5) then
          (some .alreadyRegistered, faces)
        else (none, faces ++ [⟨name, e, now⟩])

/-- Python `str.lower()` on the underlying characters (the names the
dialog accepts are plain text). -/
def lowerName (s : String) : List Char := s.data.map Char.toLower

/-- The add operation as exposed to the user
(`add_trusted_face_dialog`): first reject a name that is already
present under case-insensitive comparison, then run
`add_trusted_face`. -/
def add_trusted_identity (dist : ℤ → ℤ → ℚ) (faces : List TrustedFace)
    (boxes : ℕ) (encodings : List ℤ) (name : String) (now : ℚ) :
    Option AddError × List TrustedFace :=
  if faces.any (fun f => lowerName f.name == lowerName name) then
    (some .nameExists, faces)
  else add_trusted_face dist faces boxes encodings name now

-- ---------- Concrete states for witnesses and counterexamples ----------

/-- The neutral worker state produced by `VisionWorker.__init__` (all
transient fields neutral, default thresholds 12.0 / 15.0, snapshot
guard in the restored position). -/
def baseState : WorkerState where
  pitch_hist := []
  yaw_hist := []
  last_unknown_ts := 0
  awaiting_gesture := false
  gesture_deadline := 0
  gesture_confirmed := false
  normal_brightness := 100
  reduced := false
  owner_absent_start := none
  brightness_dimmed_for_absence := false
  auto_lock_grace_period_start := none
  brightness_before_auto_lock := none
  auto_lock_in_progress := false
  system_locked := false
  system_sleeping := false
  program_paused := false
  last_unknown_save := 0
  unknown_face_counter := 0
  gesture_test_mode := false
  gesture_test_type := .nod
  gesture_test_start := 0
  gesture_training_mode := false
  gesture_training_type := .nod
  gesture_training_start := 0
  training_nod := []
  training_shake := []
  calibration_mode := false
  calibration_start := 0
  baseline_pitch := 0
  baseline_yaw := 0
  nod_threshold := 12
  shake_threshold := 15
  patterns_nod := []
  patterns_shake := []
  brightness_before_absence := 100
  brightness_restored := true

/-- A state in the middle of a nod training episode whose recorded
patterns carry the given ranges. -/
def nodTrainState (ranges : List ℚ) : WorkerState :=
  { baseState with gesture_training_mode := true,
                   gesture_training_type := .nod,
                   training_nod := ranges.map (fun r => ⟨[], [], r, 0⟩) }

/-- A state in the middle of a shake training episode whose recorded
patterns carry the given ranges. -/
def shakeTrainState (ranges : List ℚ) : WorkerState :=
  { baseState with gesture_training_mode := true,
                   gesture_training_type := .shake,
                   training_shake := ranges.map (fun r => ⟨[], [], r, 0⟩) }

-- ---------- C2 ----------

/-- C2: for windows with at least 10 samples per axis, classification
subtracts the baseline from each sample, maps each corrected value to
a ternary state, counts per-axis oscillations as the alternations of
the nonzero states (zeros transparent, the first nonzero free), and
returns `is_nod = (pitch_osc ≥ 2 ∧ yaw_osc < 2)` and
`is_shake = (yaw_osc ≥ 2 ∧ pitch_osc < 2)`. -/
theorem gesture_classification_spec (pitch_hist yaw_hist : List ℚ)
    (bp bw nt sh : ℚ)
    (hp : pitch_hist.length ≥ 10) (hy : yaw_hist.length ≥ 10) :
    detect_gesture pitch_hist yaw_hist bp bw nt sh =
      (decide (oscillationsSpec (pitch_hist.map (fun p => p - bp)) nt ≥ 2 ∧
               oscillationsSpec (yaw_hist.map (fun y => y - bw)) sh < 2),
       decide (oscillationsSpec (yaw_hist.map (fun y => y - bw)) sh ≥ 2 ∧
               oscillationsSpec (pitch_hist.map (fun p => p - bp)) nt < 2)) := by
  unfold detect_gesture
  rw [if_neg (by omega)]
  simp only [count_oscillations_eq]

/-- Witness for C2 on a concrete 10-sample nod window. -/
theorem gesture_classification_spec_witness :
    detect_gesture [0, 20, -20, 20, 0, 0, 0, 0, 0, 0]
        [0, 0, 0, 0, 0, 0, 0, 0, 0, 0] 0 0 12 15 =
      (decide (oscillationsSpec
          (([0, 20, -20, 20, 0, 0, 0, 0, 0, 0] : List ℚ).map (fun p => p - 0)) 12 ≥ 2 ∧
        oscillationsSpec
          (([0, 0, 0, 0, 0, 0, 0, 0, 0, 0] : List ℚ).map (fun y => y - 0)) 15 < 2),
       decide (oscillationsSpec
          (([0, 0, 0, 0, 0, 0, 0, 0, 0, 0] : List ℚ).map (fun y => y - 0)) 15 ≥ 2 ∧
        oscillationsSpec
          (([0, 20, -20, 20, 0, 0, 0, 0, 0, 0] : List ℚ).map (fun p => p - 0)) 12 < 2)) :=
  gesture_classification_spec _ _ 0 0 12 15 (by decide) (by decide)

-- ---------- C5 ----------

lemma complete_nod_characterization (st : WorkerState)
    (hk : st.gesture_training_type = .nod)
    (hlen : (trainingData st .nod).length ≥ 3) :
    (complete_gesture_training st).2 = true ∧
    (complete_gesture_training st).1.nod_threshold =
      max 8 (((trainingData st .nod).map Pattern.range_deg).sum /
        (((trainingData st .nod).length : ℕ) : ℚ) * (3 / 5)) ∧
    (complete_gesture_training st).1.shake_threshold = st.shake_threshold := by
  unfold complete_gesture_training
  rw [hk, if_pos hlen]
  simp [setPatterns]

lemma complete_shake_characterization (st : WorkerState)
    (hk : st.gesture_training_type = .shake)
    (hlen : (trainingData st .shake).length ≥ 3) :
    (complete_gesture_training st).2 = true ∧
    (complete_gesture_training st).1.shake_threshold =
      max 10 (((trainingData st .shake).map Pattern.range_deg).sum /
        (((trainingData st .shake).length : ℕ) : ℚ) * (3 / 5)) ∧
    (complete_gesture_training st).1.nod_threshold = st.nod_threshold := by
  unfold complete_gesture_training
  rw [hk, if_pos hlen]
  simp [setPatterns]

/-- C5: a training episode completing with at least 3 recorded ranges
sets the trained threshold of its kind to `max(floor, mean * 0.6)`
(floor 8.0 for nod, 10.0 for shake), leaves the other threshold
unchanged, and the concrete examples evaluate to 8.0 and 12.6. -/
theorem training_threshold_update :
    (∀ st : WorkerState, st.gesture_training_type = .nod →
      (trainingData st .nod).length ≥ 3 →
      (complete_gesture_training st).2 = true ∧
      (complete_gesture_training st).1.nod_threshold =
        max 8 (((trainingData st .nod).map Pattern.range_deg).sum /
          (((trainingData st .nod).length : ℕ) : ℚ) * (3 / 5)) ∧
      (complete_gesture_training st).1.shake_threshold = st.shake_threshold) ∧
    (∀ st : WorkerState, st.gesture_training_type = .shake →
      (trainingData st .shake).length ≥ 3 →
      (complete_gesture_training st).2 = true ∧
      (complete_gesture_training st).1.shake_threshold =
        max 10 (((trainingData st .shake).map Pattern.range_deg).sum /
          (((trainingData st .shake).length : ℕ) : ℚ) * (3 / 5)) ∧
      (complete_gesture_training st).1.nod_threshold = st.nod_threshold) ∧
    (complete_gesture_training (nodTrainState [10, 12, 11, 9, 13])).1.nod_threshold = 8 ∧
    (complete_gesture_training (nodTrainState [20, 22, 21, 19, 23])).1.nod_threshold = 63 / 5 := by
  refine ⟨complete_nod_characterization, complete_shake_characterization, ?_, ?_⟩
  · have h := (complete_nod_characterization (nodTrainState [10, 12, 11, 9, 13])
      rfl (by decide)).2.1
    rw [h]
    have hd : (((trainingData (nodTrainState [10, 12, 11, 9, 13]) .nod).map
        Pattern.range_deg).sum /
        (((trainingData (nodTrainState [10, 12, 11, 9, 13]) .nod).length : ℕ) : ℚ) *
        (3 / 5)) = 33 / 5 := by
      simp [nodTrainState, trainingData]
      norm_num
    rw [hd]
    exact max_eq_left (by norm_num)
  · have h := (complete_nod_characterization (nodTrainState [20, 22, 21, 19, 23])
      rfl (by decide)).2.1
    rw [h]
    have hd : (((trainingData (nodTrainState [20, 22, 21, 19, 23]) .nod).map
        Pattern.range_deg).sum /
        (((trainingData (nodTrainState [20, 22, 21, 19, 23]) .nod).length : ℕ) : ℚ) *
        (3 / 5)) = 63 / 5 := by
      simp [nodTrainState, trainingData]
      norm_num
    rw [hd]
    exact max_eq_right (by norm_num)

/-- Witness for C5 at the first concrete training state. -/
theorem training_threshold_update_witness :
    (complete_gesture_training (nodTrainState [10, 12, 11, 9, 13])).2 = true ∧
    (complete_gesture_training (nodTrainState [10, 12, 11, 9, 13])).1.nod_threshold =
      max 8 (((trainingData (nodTrainState [10, 12, 11, 9, 13]) .nod).map
        Pattern.range_deg).sum /
        (((trainingData (nodTrainState [10, 12, 11, 9, 13]) .nod).length : ℕ) : ℚ) *
        (3 / 5)) ∧
    (complete_gesture_training (nodTrainState [10, 12, 11, 9, 13])).1.shake_threshold =
      (nodTrainState [10, 12, 11, 9, 13]).shake_threshold :=
  training_threshold_update.1 (nodTrainState [10, 12, 11, 9, 13]) rfl (by decide)

-- ---------- C7 ----------

/-- C7: the add operation rejects a name already present in the
allow-list under case-insensitive comparison and leaves the list
unchanged. -/
theorem add_trusted_rejects_duplicate_name (dist : ℤ → ℤ → ℚ)
    (faces : List TrustedFace) (boxes : ℕ) (encodings : List ℤ)
    (name : String) (now : ℚ)
    (h : ∃ f ∈ faces, lowerName f.name = lowerName name) :
    add_trusted_identity dist faces boxes encodings name now =
      (some AddError.nameExists, faces) := by
  unfold add_trusted_identity
  rw [if_pos]
  rw [List.any_eq_true]
  obtain ⟨f, hf, he⟩ := h
  exact ⟨f, hf, by simp [he]⟩

/-- A one-entry allow-list used by the C7 witness. -/
def demoFaces : List TrustedFace := [⟨"Alice", 3, 0⟩]

/-- Witness for C7: adding name ALICE is rejected when Alice is
already present, and the list is unchanged. -/
theorem add_trusted_rejects_duplicate_name_witness :
    add_trusted_identity (fun _ _ => 1) demoFaces 1 [7] ("ALICE") 0 =
      (some AddError.nameExists, demoFaces) :=
  add_trusted_rejects_duplicate_name (fun _ _ => 1) demoFaces 1 [7] ("ALICE") 0
    ⟨⟨"Alice", 3, 0⟩, by decide, by decide⟩

-- ---------- C9 ----------

/-- A state whose snapshot has already been restored (guard in the
restored position) with a stored snapshot value of 70. -/
def restoredState : WorkerState :=
  { baseState with brightness_restored := true, brightness_before_absence := 70 }

/-- Counterexample to C9: while the flag indicates restored, the
store-snapshot operation does not leave the stored snapshot untouched;
it overwrites it with the current reading (that is its write-once
rearm point). -/
theorem store_overwrites_when_restored_cex :
    restoredState.brightness_restored = true ∧
    restoredState.brightness_before_absence = 70 ∧
    (store_current_brightness restoredState 30).brightness_before_absence = 30 ∧
    (store_current_brightness restoredState 30).brightness_before_absence ≠
      restoredState.brightness_before_absence := by decide

/-- C9 (amended): a second restore in a row performs no actuator call
and changes nothing; the first restore sets the restored flag; while
the flag indicates restored a further restore is a no-op; the snapshot
is never overwritten while unrestored, and the store operation writes
it (clearing the flag) exactly when the flag indicates restored. -/
theorem brightness_restore_idempotent :
    (∀ st : WorkerState,
      (restore_brightness (restore_brightness st).1).2 = [] ∧
      (restore_brightness st).1.brightness_restored = true) ∧
    (∀ st : WorkerState, st.brightness_restored = true →
      restore_brightness st = (st, [])) ∧
    (∀ st : WorkerState, ∀ cur : ℤ, st.brightness_restored = false →
      (store_current_brightness st cur).brightness_before_absence =
        st.brightness_before_absence ∧
      (store_current_brightness st cur).brightness_restored = false) ∧
    (∀ st : WorkerState, ∀ cur : ℤ, st.brightness_restored = true →
      (store_current_brightness st cur).brightness_before_absence = cur ∧
      (store_current_brightness st cur).brightness_restored = false) := by
  refine ⟨fun st => ?_, fun st h => ?_, fun st cur h => ?_, fun st cur h => ?_⟩
  · by_cases h : st.brightness_restored <;>
      simp [restore_brightness, h]
  · simp [restore_brightness, h]
  · simp [store_current_brightness, h]
  · simp [store_current_brightness, h]

/-- Witness for C9 at the restored concrete state. -/
theorem brightness_restore_idempotent_witness :
    restore_brightness restoredState = (restoredState, []) :=
  brightness_restore_idempotent.2.1 restoredState (by decide)

-- ---------- C6 ----------

/-- A nod training episode that has collected exactly 3 samples,
observed at a tick 16 s after its start (past the 15 s terminal). -/
def threeSampleState : WorkerState := nodTrainState [10, 11, 12]

/-- Counterexample to C6: at the 15-second terminal with 3 collected
samples the episode reports failure and leaves the threshold at its
default, instead of completing successfully. -/
theorem training_timeout_fails_cex :
    (trainingData threeSampleState .nod).length = 3 ∧
    (check_gesture_training threeSampleState 16).2 = some false ∧
    (check_gesture_training threeSampleState 16).1.nod_threshold = 12 ∧
    (check_gesture_training threeSampleState 16).1.gesture_training_mode = false := by
  norm_num [check_gesture_training, threeSampleState, nodTrainState, baseState,
    trainingData]

/-- C6 (amended): the 15-second terminal always reports failure,
whatever the number of collected samples, clearing the mode flag and
leaving both thresholds unchanged; an episode succeeds only through
the 5-sample terminal, at which point the completion (whose at-least-3
check is then vacuous) computes the new threshold. -/
theorem training_terminal_behavior :
    (∀ (st : WorkerState) (now : ℚ), st.gesture_training_mode = true →
      now - st.gesture_training_start > 15 →
      check_gesture_training st now =
        ({ st with gesture_training_mode := false }, some false)) ∧
    (∀ (st : WorkerState) (now : ℚ), st.gesture_training_mode = true →
      now - st.gesture_training_start ≤ 15 →
      st.pitch_hist = [] →
      (trainingData st st.gesture_training_type).length ≥ 5 →
      check_gesture_training st now =
        ((complete_gesture_training st).1, some (complete_gesture_training st).2) ∧
      (complete_gesture_training st).2 = true) := by
  constructor
  · intro st now hm ht
    unfold check_gesture_training
    simp [hm, ht]
  · intro st now hm ht hp hlen
    have hnot : ¬(now - st.gesture_training_start > 15) := not_lt.mpr ht
    have h3 : (trainingData st st.gesture_training_type).length ≥ 3 := by omega
    constructor
    · unfold check_gesture_training
      simp [hm, hnot, hp, hlen]
    · unfold complete_gesture_training
      simp [h3]

/-- Witness for C6: a timed-out episode with three samples fails, and
a five-sample episode before the deadline completes successfully. -/
theorem training_terminal_behavior_witness :
    check_gesture_training threeSampleState 16 =
      ({ threeSampleState with gesture_training_mode := false }, some false) ∧
    (check_gesture_training (nodTrainState [10, 12, 11, 9, 13]) 1).2 = some true :=
  ⟨training_terminal_behavior.1 threeSampleState 16 rfl
      (by norm_num [threeSampleState, nodTrainState, baseState]),
   by
    have h := training_terminal_behavior.2 (nodTrainState [10, 12, 11, 9, 13]) 1
      rfl (by norm_num [nodTrainState, baseState]) rfl (by decide)
    rw [h.1]
    simp [h.2]⟩

-- ---------- C8 ----------

/-- A state holding one buffered sample per axis, about to meet an
unknown face that opens a confirmation request. -/
def bufferedState : WorkerState :=
  { baseState with pitch_hist := [1], yaw_hist := [2] }

/-- Counterexample to C8: the tick that opens a confirmation request
(owner absent, unknown face, no session, debounce satisfied) does not
clear the sample window: the buffered samples survive into the
confirmation episode. -/
theorem confirmation_keeps_window_cex :
    (unknown_face_step bufferedState 5 true false false false).1.awaiting_gesture = true ∧
    (unknown_face_step bufferedState 5 true false false false).1.gesture_deadline = 11 ∧
    (unknown_face_step bufferedState 5 true false false false).1.pitch_hist = [1] ∧
    (unknown_face_step bufferedState 5 true false false false).1.yaw_hist = [2] := by
  norm_num [unknown_face_step, save_unknown_face, bufferedState, baseState]

/-- C8 (amended): the sample window is cleared at the start of every
calibration, training and test episode, but the opening of a
confirmation request leaves the window untouched (the confirmation is
classified over samples already buffered before it opened). -/
theorem episode_window_clearing :
    (∀ (st : WorkerState) (k : GestureKind) (now : ℚ),
      (start_gesture_training st k now).pitch_hist = [] ∧
      (start_gesture_training st k now).yaw_hist = []) ∧
    (∀ (st : WorkerState) (now : ℚ),
      (start_gesture_calibration st now).pitch_hist = [] ∧
      (start_gesture_calibration st now).yaw_hist = []) ∧
    (∀ (st : WorkerState) (k : GestureKind) (now : ℚ),
      (start_gesture_test st k now).pitch_hist = [] ∧
      (start_gesture_test st k now).yaw_hist = []) ∧
    (∀ (st : WorkerState) (now : ℚ),
      st.awaiting_gesture = false → st.gesture_test_mode = false →
      now - st.last_unknown_ts > 2 →
      (unknown_face_step st now true false false false).1.awaiting_gesture = true ∧
      (unknown_face_step st now true false false false).1.pitch_hist = st.pitch_hist ∧
      (unknown_face_step st now true false false false).1.yaw_hist = st.yaw_hist) := by
  refine ⟨fun st k now => ?_, fun st now => ?_, fun st k now => ?_,
    fun st now ha ht hd => ?_⟩
  · cases k <;> simp [start_gesture_training, setTrainingData]
  · simp [start_gesture_calibration]
  · simp [start_gesture_test]
  · unfold unknown_face_step save_unknown_face
    by_cases hs : now - st.last_unknown_save < 5
    · simp [hs, ha, ht, hd]
    · simp [hs, ha, ht, hd]

/-- Witness for C8 at the buffered concrete state. -/
theorem episode_window_clearing_witness :
    (unknown_face_step bufferedState 5 true false false false).1.awaiting_gesture = true ∧
    (unknown_face_step bufferedState 5 true false false false).1.pitch_hist =
      bufferedState.pitch_hist ∧
    (unknown_face_step bufferedState 5 true false false false).1.yaw_hist =
      bufferedState.yaw_hist :=
  episode_window_clearing.2.2.2 bufferedState 5 rfl rfl
    (by norm_num [bufferedState, baseState])

-- ---------- C3 ----------

/-- A state in the middle of a confirmation request, with an auto-lock
brightness snapshot still stored, at the moment the system reports
locked. -/
def preLockState : WorkerState :=
  { baseState with awaiting_gesture := true, gesture_deadline := 50,
                   brightness_before_auto_lock := some 50 }

/-- Counterexample to C3: on the transition into the paused state made
by the lock signal, the confirmation awaiting flag, its deadline and
the pre-lock brightness snapshot all survive. -/
theorem lock_pause_keeps_awaiting_cex :
    (check_system_state preLockState true false).program_paused = true ∧
    (check_system_state preLockState true false).awaiting_gesture = true ∧
    (check_system_state preLockState true false).brightness_before_auto_lock =
      some 50 ∧
    (check_system_state preLockState true false).gesture_deadline = 50 := by
  norm_num [check_system_state, preLockState, baseState]

/-- C3 (amended): the transition into paused made by the lock signal
resets exactly `absent_since`, the dimmed flag, the armed flag and
`grace_started_at` — the pre-lock brightness snapshot, the
confirmation awaiting flag and its deadline survive (the awaiting flag
is instead cleared on the resume transition); the sleep transition
additionally resets the awaiting and confirmed flags but still leaves
the pre-lock snapshot and the deadline in place. -/
theorem pause_transition_resets :
    (∀ (st : WorkerState) (s : Bool), st.system_locked = false →
      s = st.system_sleeping →
      check_system_state st true s =
        { st with system_locked := true, program_paused := true,
                  auto_lock_in_progress := false,
                  auto_lock_grace_period_start := none,
                  owner_absent_start := none,
                  brightness_dimmed_for_absence := false }) ∧
    (∀ (st : WorkerState) (l : Bool), st.system_sleeping = false →
      l = st.system_locked →
      check_system_state st l true =
        { st with system_sleeping := true, program_paused := true,
                  owner_absent_start := none,
                  brightness_dimmed_for_absence := false,
                  auto_lock_in_progress := false,
                  auto_lock_grace_period_start := none,
                  awaiting_gesture := false, gesture_confirmed := false }) := by
  constructor
  · intro st s hl hs
    subst hs
    unfold check_system_state
    simp [hl]
  · intro st l hs hl
    subst hl
    unfold check_system_state
    simp [hs]

/-- Witness for C3 (amended) at the concrete confirmation state. -/
theorem pause_transition_resets_witness :
    check_system_state preLockState true false =
      { preLockState with system_locked := true, program_paused := true,
                          auto_lock_in_progress := false,
                          auto_lock_grace_period_start := none,
                          owner_absent_start := none,
                          brightness_dimmed_for_absence := false } :=
  pause_transition_resets.1 preLockState false rfl rfl

-- ---------- C10 ----------

/-- A live confirmation request whose deadline is at t = 10, with an
empty sample window (so no gesture can be detected). -/
def awaitingState : WorkerState :=
  { baseState with awaiting_gesture := true, gesture_deadline := 10 }

/-- Counterexample to C10: two successive ticks of one confirmation
request, at t = 8.05 and t = 8.1 (remaining 1.95 s and 1.9 s), both
emit the secondary warning — it is not latched once per request. -/
theorem deadline_warning_twice_cex :
    ((gesture_wait_step awaitingState (161 / 20)).2.countP
      (fun a => a = Action.toastWarning2s) = 1) ∧
    (gesture_wait_step awaitingState (161 / 20)).1.awaiting_gesture = true ∧
    ((gesture_wait_step (gesture_wait_step awaitingState (161 / 20)).1
      (81 / 10)).2.countP (fun a => a = Action.toastWarning2s) = 1) := by
  norm_num [gesture_wait_step, awaitingState, baseState, detect_gesture,
    List.countP_cons, List.countP_nil]

/-- C10 (amended): while a request is awaiting and the tick detects no
gesture, the secondary warning fires at every tick whose remaining
time lies in the band (1.8 s, 2.0 s] — possibly at several ticks of
one request, or at none when no tick lands in the band. -/
theorem deadline_warning_band (st : WorkerState) (now : ℚ)
    (ha : st.awaiting_gesture = true) (ht : st.gesture_test_mode = false)
    (hd : detect_gesture st.pitch_hist st.yaw_hist st.baseline_pitch
      st.baseline_yaw st.nod_threshold st.shake_threshold = (false, false)) :
    (gesture_wait_step st now).2.countP (fun a => a = Action.toastWarning2s) =
      if st.gesture_deadline - now ≤ 2 ∧ st.gesture_deadline - now > 9 / 5
      then 1 else 0 := by
  unfold gesture_wait_step
  by_cases hb : st.gesture_deadline - now ≤ 2 ∧ st.gesture_deadline - now > 9 / 5
  · have h1 : st.gesture_deadline - now ≤ 2 := hb.1
    have h2 : 9 / 5 < st.gesture_deadline - now := hb.2
    have h1a : st.gesture_deadline ≤ 2 + now := by linarith
    have h3 : ¬ st.gesture_deadline < now := by linarith
    simp [ha, ht, hd, h1, h2, h1a, h3, List.countP_cons, List.countP_nil]
  · by_cases hto : now > st.gesture_deadline
    · have h2f : ¬ (9 / 5 < st.gesture_deadline - now) := by linarith
      have h3 : st.gesture_deadline < now := hto
      simp [ha, ht, hd, h2f, h3, List.countP_cons, List.countP_nil]
    · have hbn : ¬ (st.gesture_deadline ≤ 2 + now ∧
          9 / 5 < st.gesture_deadline - now) := by
        intro h
        exact hb ⟨by linarith [h.1], h.2⟩
      have hbn2 : ¬ (st.gesture_deadline - now ≤ 2 ∧
          9 / 5 < st.gesture_deadline - now) := by
        intro h
        exact hb ⟨h.1, h.2⟩
      have h3 : ¬ st.gesture_deadline < now := hto
      simp [ha, ht, hd, hbn, hbn2, h3, List.countP_cons, List.countP_nil]

/-- Witness for C10 (amended) at the concrete awaiting state. -/
theorem deadline_warning_band_witness :
    (gesture_wait_step awaitingState (161 / 20)).2.countP
      (fun a => a = Action.toastWarning2s) =
    (if awaitingState.gesture_deadline - 161 / 20 ≤ 2 ∧
        awaitingState.gesture_deadline - 161 / 20 > 9 / 5 then 1 else 0) :=
  deadline_warning_band awaitingState (161 / 20) rfl rfl
    (by norm_num [detect_gesture, awaitingState, baseState])

-- ---------- Shared step lemmas for the loop-level claims ----------

lemma check_system_state_self (st : WorkerState) :
    check_system_state st st.system_locked st.system_sleeping = st := by
  unfold check_system_state
  simp

lemma presence_step_fields (cfg : Config) (st : WorkerState) (now : ℚ)
    (owner_here : Bool) (cur : ℤ) (lock_ok : Bool) :
    (presence_step cfg st now owner_here cur lock_ok).1.last_unknown_ts =
      st.last_unknown_ts ∧
    (presence_step cfg st now owner_here cur lock_ok).1.awaiting_gesture =
      st.awaiting_gesture ∧
    (presence_step cfg st now owner_here cur lock_ok).1.gesture_deadline =
      st.gesture_deadline ∧
    (presence_step cfg st now owner_here cur lock_ok).1.gesture_test_mode =
      st.gesture_test_mode ∧
    (presence_step cfg st now owner_here cur lock_ok).1.gesture_training_mode =
      st.gesture_training_mode ∧
    (presence_step cfg st now owner_here cur lock_ok).1.calibration_mode =
      st.calibration_mode ∧
    (presence_step cfg st now owner_here cur lock_ok).1.program_paused =
      st.program_paused ∧
    (presence_step cfg st now owner_here cur lock_ok).1.system_locked =
      st.system_locked ∧
    (presence_step cfg st now owner_here cur lock_ok).1.system_sleeping =
      st.system_sleeping ∧
    (presence_step cfg st now owner_here cur lock_ok).1.pitch_hist =
      st.pitch_hist ∧
    (presence_step cfg st now owner_here cur lock_ok).1.yaw_hist =
      st.yaw_hist ∧
    Action.toastInfoSession ∉ (presence_step cfg st now owner_here cur lock_ok).2 ∧
    lockCount (presence_step cfg st now owner_here cur lock_ok).2 ≤ 1 := by
  unfold presence_step restore_brightness store_current_brightness lockCount
  repeat' split
  all_goals simp_all [List.countP_append, List.countP_cons, List.countP_nil]

lemma unknown_face_step_fields (st : WorkerState) (now : ℚ)
    (a b c d : Bool) :
    (unknown_face_step st now a b c d).1.program_paused = st.program_paused ∧
    (unknown_face_step st now a b c d).1.system_locked = st.system_locked ∧
    (unknown_face_step st now a b c d).1.system_sleeping = st.system_sleeping ∧
    (unknown_face_step st now a b c d).1.gesture_test_mode =
      st.gesture_test_mode ∧
    (unknown_face_step st now a b c d).1.gesture_training_mode =
      st.gesture_training_mode ∧
    (unknown_face_step st now a b c d).1.calibration_mode =
      st.calibration_mode ∧
    (unknown_face_step st now a b c d).1.pitch_hist = st.pitch_hist ∧
    (unknown_face_step st now a b c d).1.yaw_hist = st.yaw_hist ∧
    lockCount (unknown_face_step st now a b c d).2 = 0 := by
  unfold unknown_face_step save_unknown_face lockCount
  repeat' split
  all_goals try dsimp only
  all_goals repeat' split
  all_goals simp_all [List.countP_cons, List.countP_nil]

lemma gesture_wait_step_fields (st : WorkerState) (now : ℚ) :
    (gesture_wait_step st now).1.program_paused = st.program_paused ∧
    (gesture_wait_step st now).1.system_locked = st.system_locked ∧
    (gesture_wait_step st now).1.system_sleeping = st.system_sleeping ∧
    (gesture_wait_step st now).1.gesture_test_mode = st.gesture_test_mode ∧
    (gesture_wait_step st now).1.gesture_training_mode =
      st.gesture_training_mode ∧
    (gesture_wait_step st now).1.calibration_mode = st.calibration_mode ∧
    (gesture_wait_step st now).1.last_unknown_ts = st.last_unknown_ts ∧
    (gesture_wait_step st now).1.pitch_hist = st.pitch_hist ∧
    (gesture_wait_step st now).1.yaw_hist = st.yaw_hist ∧
    Action.toastInfoSession ∉ (gesture_wait_step st now).2 ∧
    lockCount (gesture_wait_step st now).2 = 0 := by
  unfold gesture_wait_step lockCount
  repeat' split
  all_goals try dsimp only
  all_goals repeat' split
  all_goals simp_all [List.countP_append, List.countP_cons, List.countP_nil]

lemma gesture_wait_step_not_awaiting (st : WorkerState) (now : ℚ)
    (h : st.awaiting_gesture = false) :
    gesture_wait_step st now = (st, []) := by
  unfold gesture_wait_step
  simp [h]

lemma unknown_face_step_session (st : WorkerState) (now : ℚ) :
    unknown_face_step st now true false false true =
      (if now - st.last_unknown_ts > 10 then
        ({ st with last_unknown_ts := now }, [Action.toastInfoSession])
      else (st, [])) := by
  unfold unknown_face_step
  simp

-- ---------- C4 ----------

/-- The external inputs of a tick on which an unknown face is seen
while a trusted session is active: owner absent, a face present, the
face not trusted, session active, the lock/sleep signals unchanged
from the remembered state. -/
def sessionInput (st : WorkerState) (now : ℚ) (cur : ℤ)
    (pose : Option (ℚ × ℚ)) : TickInput :=
  ⟨now, st.system_locked, st.system_sleeping, false, true, false, true,
   cur, pose, true⟩

lemma tick_body_session (cfg : Config) (st1 : WorkerState) (now : ℚ) (cb : ℤ)
    (lk : Bool) (ha : st1.awaiting_gesture = false)
    (htest : st1.gesture_test_mode = false)
    (htr : st1.gesture_training_mode = false)
    (hc : st1.calibration_mode = false) :
    (tick_body cfg st1 now false true false true cb lk).1.awaiting_gesture =
      false ∧
    (tick_body cfg st1 now false true false true cb lk).1.gesture_deadline =
      st1.gesture_deadline ∧
    (tick_body cfg st1 now false true false true cb lk).1.last_unknown_ts =
      (if now - st1.last_unknown_ts > 10 then now else st1.last_unknown_ts) ∧
    ((Action.toastInfoSession ∈
        (tick_body cfg st1 now false true false true cb lk).2) ↔
      now - st1.last_unknown_ts > 10) ∧
    (tick_body cfg st1 now false true false true cb lk).1.program_paused =
      st1.program_paused ∧
    (tick_body cfg st1 now false true false true cb lk).1.system_locked =
      st1.system_locked ∧
    (tick_body cfg st1 now false true false true cb lk).1.system_sleeping =
      st1.system_sleeping ∧
    (tick_body cfg st1 now false true false true cb lk).1.gesture_test_mode =
      st1.gesture_test_mode ∧
    (tick_body cfg st1 now false true false true
      cb lk).1.gesture_training_mode = st1.gesture_training_mode ∧
    (tick_body cfg st1 now false true false true cb lk).1.calibration_mode =
      st1.calibration_mode := by
  unfold tick_body
  dsimp only
  rw [if_neg (by simp [htest, htr, hc]), if_neg (by simp [htest, htr, hc]),
    if_neg (by simp [htest, htr, hc])]
  obtain ⟨f1, f2, f3, f4, f5, f6, f7, f8, f9, f10, f11, f12, f13⟩ :=
    presence_step_fields cfg st1 now false cb lk
  rw [unknown_face_step_session]
  by_cases hcond :
      now - (presence_step cfg st1 now false cb lk).1.last_unknown_ts > 10
  · rw [if_pos hcond]
    rw [gesture_wait_step_not_awaiting _ now (by simp [f2, ha])]
    rw [f1] at hcond
    simp [f1, f2, f3, f4, f5, f6, f7, f8, f9, hcond, ha]
  · rw [if_neg hcond]
    rw [gesture_wait_step_not_awaiting _ now (by simp [f2, ha])]
    rw [f1] at hcond
    simp [f1, f2, f3, f4, f5, f6, f7, f8, f9, f12, hcond, ha]

lemma process_tick_session (cfg : Config) (st : WorkerState) (inp : TickInput)
    (hoh : inp.owner_here = false) (hf : inp.faces_present = true)
    (htrust : inp.trusted = false) (hsess : inp.session_active = true)
    (ha : st.awaiting_gesture = false) (htest : st.gesture_test_mode = false)
    (htr : st.gesture_training_mode = false) (hc : st.calibration_mode = false) :
    (process_tick cfg st inp).1.awaiting_gesture = false ∧
    (process_tick cfg st inp).1.gesture_deadline = st.gesture_deadline ∧
    (process_tick cfg st inp).1.last_unknown_ts =
      (if inp.now - st.last_unknown_ts > 10 then inp.now
       else st.last_unknown_ts) ∧
    ((Action.toastInfoSession ∈ (process_tick cfg st inp).2) ↔
      inp.now - st.last_unknown_ts > 10) ∧
    (process_tick cfg st inp).1.program_paused = st.program_paused ∧
    (process_tick cfg st inp).1.system_locked = st.system_locked ∧
    (process_tick cfg st inp).1.system_sleeping = st.system_sleeping ∧
    (process_tick cfg st inp).1.gesture_test_mode = false ∧
    (process_tick cfg st inp).1.gesture_training_mode = false ∧
    (process_tick cfg st inp).1.calibration_mode = false := by
  obtain ⟨now, ls, ss, oh, fp, tr, sa, cb, pose, lk⟩ := inp
  simp only at hoh hf htrust hsess
  subst hoh hf htrust hsess
  unfold process_tick
  cases pose with
  | none =>
      dsimp only
      obtain ⟨g1, g2, g3, g4, g5, g6, g7, g8, g9, g10⟩ :=
        tick_body_session cfg st now cb lk ha htest htr hc
      exact ⟨g1, g2, g3, g4, g5, g6, g7, g8.trans htest, g9.trans htr,
        g10.trans hc⟩
  | some pr =>
      dsimp only
      obtain ⟨g1, g2, g3, g4, g5, g6, g7, g8, g9, g10⟩ :=
        tick_body_session cfg
          { st with pitch_hist := dequeAppend st.pitch_hist pr.1,
                    yaw_hist := dequeAppend st.yaw_hist pr.2 } now cb lk
          ha htest htr hc
      exact ⟨g1, g2, g3, g4, g5, g6, g7, g8.trans htest, g9.trans htr,
        g10.trans hc⟩

lemma session_tick (cfg : Config) (st : WorkerState) (now : ℚ) (cur : ℤ)
    (pose : Option (ℚ × ℚ))
    (hp : st.program_paused = false) (ha : st.awaiting_gesture = false)
    (htest : st.gesture_test_mode = false)
    (htr : st.gesture_training_mode = false)
    (hc : st.calibration_mode = false) :
    (vision_tick cfg st (sessionInput st now cur pose)).1.awaiting_gesture =
      false ∧
    (vision_tick cfg st (sessionInput st now cur pose)).1.gesture_deadline =
      st.gesture_deadline ∧
    (vision_tick cfg st (sessionInput st now cur pose)).1.last_unknown_ts =
      (if now - st.last_unknown_ts > 10 then now else st.last_unknown_ts) ∧
    ((Action.toastInfoSession ∈
        (vision_tick cfg st (sessionInput st now cur pose)).2) ↔
      now - st.last_unknown_ts > 10) ∧
    (vision_tick cfg st (sessionInput st now cur pose)).1.program_paused =
      false ∧
    (vision_tick cfg st (sessionInput st now cur pose)).1.system_locked =
      st.system_locked ∧
    (vision_tick cfg st (sessionInput st now cur pose)).1.system_sleeping =
      st.system_sleeping ∧
    (vision_tick cfg st (sessionInput st now cur pose)).1.gesture_test_mode =
      false ∧
    (vision_tick cfg st
      (sessionInput st now cur pose)).1.gesture_training_mode = false ∧
    (vision_tick cfg st (sessionInput st now cur pose)).1.calibration_mode =
      false := by
  have hbody := process_tick_session cfg st (sessionInput st now cur pose)
    rfl rfl rfl rfl ha htest htr hc
  unfold vision_tick sessionInput
  dsimp only
  rw [check_system_state_self st, if_neg (by simp [hp])]
  exact ⟨hbody.1, hbody.2.1, hbody.2.2.1, hbody.2.2.2.1,
    hbody.2.2.2.2.1.trans hp, hbody.2.2.2.2.2.1, hbody.2.2.2.2.2.2.1,
    hbody.2.2.2.2.2.2.2.1, hbody.2.2.2.2.2.2.2.2.1, hbody.2.2.2.2.2.2.2.2.2⟩

/-- The times at which the session-mode informational notice is
emitted over a run of ticks on which an unknown face is visible while
a trusted session is active. -/
def session_emissions (cfg : Config) (st : WorkerState) :
    List (ℚ × ℤ × Option (ℚ × ℚ)) → List ℚ
  | [] => []
  | t :: rest =>
      (if Action.toastInfoSession ∈
          (vision_tick cfg st (sessionInput st t.1 t.2.1 t.2.2)).2
       then [t.1] else []) ++
      session_emissions cfg
        (vision_tick cfg st (sessionInput st t.1 t.2.1 t.2.2)).1 rest

lemma session_emissions_spaced (cfg : Config)
    (ticks : List (ℚ × ℤ × Option (ℚ × ℚ))) :
    ∀ st : WorkerState, st.program_paused = false →
    st.awaiting_gesture = false → st.gesture_test_mode = false →
    st.gesture_training_mode = false → st.calibration_mode = false →
    (∀ e ∈ session_emissions cfg st ticks, st.last_unknown_ts + 10 < e) ∧
    List.Pairwise (fun a b => a + 10 < b) (session_emissions cfg st ticks) := by
  induction ticks with
  | nil =>
      intro st _ _ _ _ _
      simp [session_emissions]
  | cons t rest ih =>
      intro st hp ha htest htr hc
      obtain ⟨s1, s2, s3, s4, s5, s6, s7, s8, s9, s10⟩ :=
        session_tick cfg st t.1 t.2.1 t.2.2 hp ha htest htr hc
      obtain ⟨ih1, ih2⟩ :=
        ih (vision_tick cfg st (sessionInput st t.1 t.2.1 t.2.2)).1
          s5 s1 s8 s9 s10
      unfold session_emissions
      by_cases hcond : t.1 - st.last_unknown_ts > 10
      · rw [if_pos (s4.mpr hcond)]
        have hlast :
            (vision_tick cfg st
              (sessionInput st t.1 t.2.1 t.2.2)).1.last_unknown_ts = t.1 := by
          rw [s3, if_pos hcond]
        rw [hlast] at ih1
        constructor
        · intro e he
          rcases List.mem_cons.mp he with he1 | he2
          · subst he1
            linarith
          · have := ih1 e he2
            linarith
        · refine List.pairwise_cons.mpr ⟨?_, ih2⟩
          intro b hb
          exact ih1 b hb
      · rw [if_neg (fun hmem => hcond (s4.mp hmem))]
        have hlast :
            (vision_tick cfg st
              (sessionInput st t.1 t.2.1 t.2.2)).1.last_unknown_ts =
            st.last_unknown_ts := by
          rw [s3, if_neg hcond]
        rw [hlast] at ih1
        simpa using ⟨ih1, ih2⟩

/-- C4: on every tick where a detected face is neither the owner nor
trusted while a trusted session is valid, no new confirmation request
is opened (the awaiting flag stays false and the deadline is
untouched); the informational notice is emitted exactly when more than
10 s have passed since the last one, so over any such run the emission
times are spaced more than 10 s apart. -/
theorem session_suppresses_confirmation :
    (∀ (cfg : Config) (st : WorkerState) (now : ℚ) (cur : ℤ)
        (pose : Option (ℚ × ℚ)),
      st.program_paused = false → st.awaiting_gesture = false →
      st.gesture_test_mode = false → st.gesture_training_mode = false →
      st.calibration_mode = false →
      (vision_tick cfg st (sessionInput st now cur pose)).1.awaiting_gesture =
        false ∧
      (vision_tick cfg st (sessionInput st now cur pose)).1.gesture_deadline =
        st.gesture_deadline ∧
      ((Action.toastInfoSession ∈
          (vision_tick cfg st (sessionInput st now cur pose)).2) ↔
        now - st.last_unknown_ts > 10)) ∧
    (∀ (cfg : Config) (st : WorkerState)
        (ticks : List (ℚ × ℤ × Option (ℚ × ℚ))),
      st.program_paused = false → st.awaiting_gesture = false →
      st.gesture_test_mode = false → st.gesture_training_mode = false →
      st.calibration_mode = false →
      List.Pairwise (fun a b => a + 10 < b)
        (session_emissions cfg st ticks)) := by
  constructor
  · intro cfg st now cur pose hp ha htest htr hc
    obtain ⟨s1, s2, s3, s4, _⟩ := session_tick cfg st now cur pose hp ha htest htr hc
    exact ⟨s1, s2, s4⟩
  · intro cfg st ticks hp ha htest htr hc
    exact (session_emissions_spaced cfg ticks st hp ha htest htr hc).2

/-- Witness for C4 at the neutral state: a session tick at t = 11 with
the last notice at t = 0 emits the informational notice and opens no
request. -/
theorem session_suppresses_confirmation_witness :
    (vision_tick defaultConfig baseState
      (sessionInput baseState 11 50 none)).1.awaiting_gesture = false ∧
    (vision_tick defaultConfig baseState
      (sessionInput baseState 11 50 none)).1.gesture_deadline =
      baseState.gesture_deadline ∧
    ((Action.toastInfoSession ∈
        (vision_tick defaultConfig baseState
          (sessionInput baseState 11 50 none)).2) ↔
      (11 : ℚ) - baseState.last_unknown_ts > 10) :=
  session_suppresses_confirmation.1 defaultConfig baseState 11 50 none
    rfl rfl rfl rfl rfl

-- ---------- C1 ----------

lemma presence_step_fire (cfg : Config) (st : WorkerState) (now t0 g : ℚ)
    (b : ℤ) (cur : ℤ) (lock_ok : Bool)
    (habs : st.owner_absent_start = some t0)
    (hdim : st.brightness_dimmed_for_absence = true)
    (harm : st.auto_lock_in_progress = true)
    (hg : st.auto_lock_grace_period_start = some g)
    (hel : now - g > cfg.auto_lock_grace_period)
    (hsnap : st.brightness_before_auto_lock = some b) :
    presence_step cfg st now false cur lock_ok =
      ({ st with auto_lock_in_progress := false,
                 auto_lock_grace_period_start := none,
                 brightness_before_auto_lock := none,
                 brightness_dimmed_for_absence := false,
                 owner_absent_start := none },
       [Action.setBrightness (clampB b), Action.lockScreen,
        if lock_ok then Action.toastOther else Action.toastLockFailed]) := by
  unfold presence_step
  rw [habs]
  simp [hdim, harm, hg, hsnap, hel]

lemma check_gesture_test_flags (st : WorkerState) (now : ℚ) :
    (check_gesture_test st now).system_locked = st.system_locked ∧
    (check_gesture_test st now).system_sleeping = st.system_sleeping ∧
    (check_gesture_test st now).program_paused = st.program_paused := by
  unfold check_gesture_test
  repeat' split
  all_goals try dsimp only
  all_goals repeat' split
  all_goals simp_all

lemma check_gesture_training_flags (st : WorkerState) (now : ℚ) :
    (check_gesture_training st now).1.system_locked = st.system_locked ∧
    (check_gesture_training st now).1.system_sleeping = st.system_sleeping ∧
    (check_gesture_training st now).1.program_paused = st.program_paused := by
  unfold check_gesture_training complete_gesture_training setPatterns
  repeat' split
  all_goals try dsimp only
  all_goals repeat' split
  all_goals simp_all

lemma check_gesture_calibration_flags (st : WorkerState) (now : ℚ) :
    (check_gesture_calibration st now).1.system_locked = st.system_locked ∧
    (check_gesture_calibration st now).1.system_sleeping =
      st.system_sleeping ∧
    (check_gesture_calibration st now).1.program_paused = st.program_paused := by
  unfold check_gesture_calibration
  repeat' split
  all_goals simp_all

lemma lockCount_append (a b : List Action) :
    lockCount (a ++ b) = lockCount a + lockCount b := by
  unfold lockCount
  exact List.countP_append _ _ _

lemma tick_body_flags (cfg : Config) (st1 : WorkerState) (now : ℚ)
    (oh fp tr sa : Bool) (cur : ℤ) (lk : Bool) :
    lockCount (tick_body cfg st1 now oh fp tr sa cur lk).2 ≤ 1 ∧
    (tick_body cfg st1 now oh fp tr sa cur lk).1.system_locked =
      st1.system_locked ∧
    (tick_body cfg st1 now oh fp tr sa cur lk).1.system_sleeping =
      st1.system_sleeping ∧
    (tick_body cfg st1 now oh fp tr sa cur lk).1.program_paused =
      st1.program_paused := by
  unfold tick_body
  dsimp only
  set st2 := if st1.gesture_test_mode then check_gesture_test st1 now else st1
    with hst2
  have e2 : st2.system_locked = st1.system_locked ∧
      st2.system_sleeping = st1.system_sleeping ∧
      st2.program_paused = st1.program_paused := by
    rw [hst2]
    split
    · exact check_gesture_test_flags st1 now
    · exact ⟨rfl, rfl, rfl⟩
  set st3 := if st2.gesture_training_mode then
      (check_gesture_training st2 now).1 else st2 with hst3
  have e3 : st3.system_locked = st1.system_locked ∧
      st3.system_sleeping = st1.system_sleeping ∧
      st3.program_paused = st1.program_paused := by
    rw [hst3]
    split
    · exact ⟨(check_gesture_training_flags st2 now).1.trans e2.1,
        (check_gesture_training_flags st2 now).2.1.trans e2.2.1,
        (check_gesture_training_flags st2 now).2.2.trans e2.2.2⟩
    · exact e2
  set st4 := if st3.calibration_mode then
      (check_gesture_calibration st3 now).1 else st3 with hst4
  have e4 : st4.system_locked = st1.system_locked ∧
      st4.system_sleeping = st1.system_sleeping ∧
      st4.program_paused = st1.program_paused := by
    rw [hst4]
    split
    · exact ⟨(check_gesture_calibration_flags st3 now).1.trans e3.1,
        (check_gesture_calibration_flags st3 now).2.1.trans e3.2.1,
        (check_gesture_calibration_flags st3 now).2.2.trans e3.2.2⟩
    · exact e3
  obtain ⟨f1, f2, f3, f4, f5, f6, f7, f8, f9, f10, f11, f12, f13⟩ :=
    presence_step_fields cfg st4 now oh cur lk
  obtain ⟨u1, u2, u3, u4, u5, u6, u7, u8, u9⟩ :=
    unknown_face_step_fields (presence_step cfg st4 now oh cur lk).1 now
      fp oh tr sa
  obtain ⟨w1, w2, w3, w4, w5, w6, w7, w8, w9, w10, w11⟩ :=
    gesture_wait_step_fields (unknown_face_step
      (presence_step cfg st4 now oh cur lk).1 now fp oh tr sa).1 now
  refine ⟨?_, ?_, ?_, ?_⟩
  · rw [lockCount_append, lockCount_append, u9, w11]
    omega
  · rw [w2, u2, f8]
    exact e4.1
  · rw [w3, u3, f9]
    exact e4.2.1
  · rw [w1, u1, f7]
    exact e4.2.2

lemma check_system_state_lock_transition (st : WorkerState)
    (hlk : st.system_locked = false) (hs : st.system_sleeping = false) :
    check_system_state st true false =
      { st with system_locked := true, program_paused := true,
                auto_lock_in_progress := false,
                auto_lock_grace_period_start := none,
                owner_absent_start := none,
                brightness_dimmed_for_absence := false } := by
  unfold check_system_state
  simp [hlk, hs]

lemma check_system_state_locked_stable (st : WorkerState)
    (hlk : st.system_locked = true) (hs : st.system_sleeping = false) :
    check_system_state st true false = st := by
  unfold check_system_state
  simp [hlk, hs]

lemma closed_run_locks_locked (cfg : Config) (ticks : List (ℚ × ℤ)) :
    ∀ st : WorkerState, st.system_sleeping = false →
    (st.system_locked = true → st.program_paused = true) →
    closed_run_locks cfg (st, true) ticks = 0 := by
  induction ticks with
  | nil => intro st _ _; rfl
  | cons t rest ih =>
      intro st hs hp
      simp only [closed_run_locks, closed_step]
      dsimp only
      by_cases hlk : st.system_locked = true
      · have hcs := check_system_state_locked_stable st hlk hs
        unfold vision_tick
        rw [hcs, if_pos (hp hlk)]
        simp only [lockCount, List.countP_nil, List.not_mem_nil,
          decide_False, Bool.or_false, zero_add]
        exact ih st hs hp
      · have hcs := check_system_state_lock_transition st
          (Bool.not_eq_true st.system_locked ▸ hlk) hs
        unfold vision_tick
        rw [hcs, if_pos (by rfl)]
        simp only [lockCount, List.countP_nil, List.not_mem_nil,
          decide_False, Bool.or_false, zero_add]
        exact ih _ hs (fun _ => rfl)

lemma closed_run_locks_le_one (cfg : Config) (ticks : List (ℚ × ℤ)) :
    ∀ st : WorkerState, st.system_locked = false → st.system_sleeping = false →
    closed_run_locks cfg (st, false) ticks ≤ 1 := by
  induction ticks with
  | nil =>
      intro st _ _
      simp [closed_run_locks]
  | cons t rest ih =>
      intro st hlk hs
      simp only [closed_run_locks, closed_step]
      dsimp only
      have hcs : check_system_state st false false = st := by
        unfold check_system_state
        simp [hlk, hs]
      unfold vision_tick
      rw [hcs]
      by_cases hpause : st.program_paused = true
      · rw [if_pos hpause]
        simp only [lockCount, List.countP_nil, List.not_mem_nil,
          decide_False, Bool.or_false, zero_add]
        exact ih st hlk hs
      · rw [if_neg hpause]
        unfold process_tick
        dsimp only
        obtain ⟨b1, b2, b3, b4⟩ :=
          tick_body_flags cfg st t.1 false false false false t.2 true
        by_cases hmem : Action.lockScreen ∈
            (tick_body cfg st t.1 false false false false t.2 true).2
        · rw [decide_eq_true hmem]
          simp only [Bool.or_true]
          have hrest := closed_run_locks_locked cfg rest
            (tick_body cfg st t.1 false false false false t.2 true).1
            (b3.trans hs)
            (fun hcontra => absurd (b2.symm.trans hcontra) (by rw [hlk]; simp))
          omega
        · rw [decide_eq_false hmem]
          simp only [Bool.or_false]
          have hcount : lockCount
              (tick_body cfg st t.1 false false false false t.2 true).2 = 0 := by
            unfold lockCount
            refine List.countP_eq_zero.mpr ?_
            intro a haa
            simp only [decide_eq_true_eq]
            intro hEq
            exact hmem (hEq ▸ haa)
          rw [hcount, zero_add]
          exact ih _ (b2.trans hlk) (b3.trans hs)

/-- The configuration of the concrete auto-lock run: auto-lock
enabled, 3 s absence delay, 30 s grace period. -/
def runCfg : Config := ⟨true, 3, 30⟩

/-- The state after the owner just left at t = 0. -/
def stAbsent : WorkerState := { baseState with owner_absent_start := some 0 }

/-- The armed state after the absence delay elapsed at t = 4: screen
dimmed, snapshot stored, grace timer started. -/
def stArmed : WorkerState :=
  { baseState with owner_absent_start := some 0,
                   brightness_dimmed_for_absence := true,
                   auto_lock_in_progress := true,
                   auto_lock_grace_period_start := some 4,
                   brightness_before_auto_lock := some 80 }

/-- The paused state after the OS reports the screen locked. -/
def stPausedLock : WorkerState :=
  { baseState with system_locked := true, program_paused := true }

/-- C1: when the auto-lock sequence is armed and the grace period has
elapsed, the tick emits the brightness restore (from the pre-lock
snapshot) immediately before the lock invocation and clears all five
auto-lock and absence fields, with the same post-state whatever the
lock actuator returns; in the closed loop where a successful lock
makes the external lock signal pause the monitor, any sustained
absence invokes the lock actuator at most once, and the concrete
sustained absence past delay plus grace invokes it exactly once. -/
theorem auto_lock_fire_and_once :
    (∀ (cfg : Config) (st : WorkerState) (now t0 g : ℚ) (b cur : ℤ)
        (lock_ok : Bool),
      st.owner_absent_start = some t0 →
      st.brightness_dimmed_for_absence = true →
      st.auto_lock_in_progress = true →
      st.auto_lock_grace_period_start = some g →
      now - g > cfg.auto_lock_grace_period →
      st.brightness_before_auto_lock = some b →
      presence_step cfg st now false cur lock_ok =
        ({ st with auto_lock_in_progress := false,
                   auto_lock_grace_period_start := none,
                   brightness_before_auto_lock := none,
                   brightness_dimmed_for_absence := false,
                   owner_absent_start := none },
         [Action.setBrightness (clampB b), Action.lockScreen,
          if lock_ok then Action.toastOther else Action.toastLockFailed])) ∧
    (∀ (cfg : Config) (ticks : List (ℚ × ℤ)) (st : WorkerState),
      st.system_locked = false → st.system_sleeping = false →
      closed_run_locks cfg (st, false) ticks ≤ 1) ∧
    closed_run_locks ⟨true, 3, 30⟩ (baseState, false)
      [(0, 80), (4, 80), (35, 80), (36, 80), (100, 80)] = 1 := by
  refine ⟨fun cfg st now t0 g b cur lock_ok h1 h2 h3 h4 h5 h6 =>
      presence_step_fire cfg st now t0 g b cur lock_ok h1 h2 h3 h4 h5 h6,
    fun cfg ticks st h1 h2 => closed_run_locks_le_one cfg ticks st h1 h2, ?_⟩
  have e1 : vision_tick runCfg baseState
      ⟨0, false, false, false, false, false, false, 80, none, true⟩ =
      (stAbsent, [Action.toastOther]) := by
    norm_num [vision_tick, check_system_state, process_tick, tick_body,
      presence_step, unknown_face_step, gesture_wait_step, baseState,
      stAbsent, runCfg]
  have e2 : vision_tick runCfg stAbsent
      ⟨4, false, false, false, false, false, false, 80, none, true⟩ =
      (stArmed, [Action.setBrightness 0, Action.toastOther]) := by
    norm_num [vision_tick, check_system_state, process_tick, tick_body,
      presence_step, unknown_face_step, gesture_wait_step, baseState,
      stAbsent, stArmed, runCfg]
  have e3 : vision_tick runCfg stArmed
      ⟨35, false, false, false, false, false, false, 80, none, true⟩ =
      (baseState, [Action.setBrightness (clampB 80), Action.lockScreen,
        Action.toastOther]) := by
    norm_num [vision_tick, check_system_state, process_tick, tick_body,
      presence_step, unknown_face_step, gesture_wait_step, baseState,
      stArmed, runCfg, Option.some_ne_none]
  have e4 : vision_tick runCfg baseState
      ⟨36, true, false, false, false, false, false, 80, none, true⟩ =
      (stPausedLock, []) := by
    norm_num [vision_tick, check_system_state, baseState, stPausedLock, runCfg]
  have e5 : vision_tick runCfg stPausedLock
      ⟨100, true, false, false, false, false, false, 80, none, true⟩ =
      (stPausedLock, []) := by
    norm_num [vision_tick, check_system_state, baseState, stPausedLock, runCfg]
  have unroll : ∀ (p : WorkerState × Bool) (inp : ℚ × ℤ)
      (rest : List (ℚ × ℤ)),
      closed_run_locks runCfg p (inp :: rest) =
        lockCount (vision_tick runCfg p.1
          ⟨inp.1, p.2, false, false, false, false, false, inp.2, none,
            true⟩).2 +
        closed_run_locks runCfg (closed_step runCfg p inp) rest :=
    fun _ _ _ => rfl
  have step1 : closed_step runCfg (baseState, false) (0, 80) =
      (stAbsent, false) := by
    unfold closed_step
    dsimp only
    rw [e1]
    simp
  have step2 : closed_step runCfg (stAbsent, false) (4, 80) =
      (stArmed, false) := by
    unfold closed_step
    dsimp only
    rw [e2]
    simp
  have step3 : closed_step runCfg (stArmed, false) (35, 80) =
      (baseState, true) := by
    unfold closed_step
    dsimp only
    rw [e3]
    simp
  have step4 : closed_step runCfg (baseState, true) (36, 80) =
      (stPausedLock, true) := by
    unfold closed_step
    dsimp only
    rw [e4]
    simp
  show closed_run_locks runCfg (baseState, false)
    [(0, 80), (4, 80), (35, 80), (36, 80), (100, 80)] = 1
  rw [unroll, step1, unroll, step2, unroll, step3, unroll, step4, unroll]
  rw [e1, e2, e3, e4, e5]
  simp only [closed_run_locks]
  decide

/-- Witness for C1: the fire tick at the concrete armed state, for a
failing lock actuator. -/
theorem auto_lock_fire_and_once_witness :
    presence_step ⟨true, 3, 30⟩
      { baseState with owner_absent_start := some 0,
                       brightness_dimmed_for_absence := true,
                       auto_lock_in_progress := true,
                       auto_lock_grace_period_start := some 4,
                       brightness_before_auto_lock := some 80 }
      35 false 80 false =
      ({ { baseState with owner_absent_start := some 0,
                          brightness_dimmed_for_absence := true,
                          auto_lock_in_progress := true,
                          auto_lock_grace_period_start := some 4,
                          brightness_before_auto_lock := some 80 } with
            auto_lock_in_progress := false,
            auto_lock_grace_period_start := none,
            brightness_before_auto_lock := none,
            brightness_dimmed_for_absence := false,
            owner_absent_start := none },
       [Action.setBrightness (clampB 80), Action.lockScreen,
        if false then Action.toastOther else Action.toastLockFailed]) :=
  auto_lock_fire_and_once.1 ⟨true, 3, 30⟩
    { baseState with owner_absent_start := some 0,
                     brightness_dimmed_for_absence := true,
                     auto_lock_in_progress := true,
                     auto_lock_grace_period_start := some 4,
                     brightness_before_auto_lock := some 80 }
    35 0 4 80 80 false rfl rfl rfl rfl (by norm_num) rfl

end FaceGuard
